import Mathlib

/-!
Shallow embedding of the derivation engine of the stratusweb client dashboard
(src/src/pages/Dashboard.tsx).  The calculation utilities of that file are
translated here: exact rational arithmetic (ℚ) models JavaScript numbers where
only field operations, rounding and comparisons occur, and real numbers (ℝ)
model the transcendental formulas (exp, log, trig, rpow).  JavaScript
primitives that the code relies on (the sign-following remainder operator,
Math.round, Math.trunc-style division, array indexing that yields undefined
out of range) are modelled explicitly below.
-/

namespace Stratus

/-- JavaScript truncating conversion of a rational toward zero, as used by the
remainder operator: floor for non-negative arguments, ceiling for negative. -/
def jsTruncQ (q : ℚ) : ℤ := if 0 ≤ q then ⌊q⌋ else ⌈q⌉

/-- JavaScript remainder operator a % b on rationals: the result has the sign
of the dividend, a - b * trunc(a / b). -/
def jsModQ (a b : ℚ) : ℚ := a - b * (jsTruncQ (a / b) : ℚ)

/-- JavaScript Math.round: rounds half toward positive infinity. -/
def jsRoundQ (q : ℚ) : ℤ := ⌊q + 1/2⌋

/-- JavaScript remainder operator on integers (sign of the dividend), used for
the already-rounded compass index.  Int.tdiv truncates toward zero. -/
def jsRemInt (a b : ℤ) : ℤ := a - b * (Int.tdiv a b)

/-- Mathematical (non-negative for positive modulus) remainder on rationals,
as the specification's wind-direction formula prescribes. -/
def mathModQ (a b : ℚ) : ℚ := a - b * (⌊a / b⌋ : ℚ)

/-- The ordered 16-point compass rose of Dashboard.tsx, clockwise from north. -/
def directions : List String :=
  ["N", "NNE", "NE", "ENE", "E", "ESE", "SE", "SSE",
   "S", "SSW", "SW", "WSW", "W", "WNW", "NW", "NNW"]

/-- Embedding of getWindDirectionName (Dashboard.tsx lines 184-188).
The index is Math.round(((degrees % 360) / 22.5)) % 16 with JavaScript
semantics for % (sign of the dividend); a negative index makes the array
access evaluate to undefined, modelled as none. -/
def getWindDirectionName (degrees : ℚ) : Option String :=
  let index : ℤ := jsRemInt (jsRoundQ (jsModQ degrees 360 / 22.5)) 16
  if index < 0 then none else directions.get? index.toNat

/-- Modelled from the spec: windDirectionName(degrees) as the specification
words it, round((deg mod 360)/22.5) mod 16 with mathematical (non-negative)
mod, indexing the compass rose. -/
def windDirectionNameSpec (degrees : ℚ) : String :=
  directions.getD ((jsRoundQ (mathModQ degrees 360 / 22.5)) % 16).toNat "N"

/-- Shape of a JavaScript value as it can reach getValue/formatValue from a
snapshot's readings record: null, undefined (absent key), the number NaN,
a finite number (exact rational), or a string. -/
inductive JsVal where
  | vNull : JsVal
  | vUndefined : JsVal
  | vNaN : JsVal
  | vNum : ℚ → JsVal
  | vStr : String → JsVal
deriving DecidableEq

/-- The entries of the demoValues object (Dashboard.tsx lines 652-665) that
are legible in the source, taken verbatim.  The middle of the object,
between the windSpeed and uvIndex lines, is destroyed by an overlay of
unrelated markup (lines 657-658), so this map is only the legible part. -/
def demoValuesVisible (key : String) : Option ℚ :=
  if key = "temperature" then some 26.4
  else if key = "humidity" then some 52
  else if key = "pressure" then some 865.2
  else if key = "windSpeed" then some 14.5
  else if key = "uvIndex" then some 9.8
  else if key = "batteryVoltage" then some 13.1
  else if key = "soilTemperature" then some 22.5
  else if key = "soilMoisture" then some 28.4
  else if key = "pm25" then some 11.2
  else if key = "pm10" then some 22.8
  else none

/-- The snapshot channels of the specification's data model whose demo
fallback entries fall in the destroyed span of the demoValues object: the
channels the dashboard reads through getValue that sit between windSpeed
and uvIndex in its display order. -/
def lostDemoChannels : List String :=
  ["windDirection", "windGust", "solarRadiation", "rainfall"]

/-- Modelled from the spec: the demoValues entries destroyed at
Dashboard.tsx lines 657-658.  The specification (value resolution with
fallback) documents a per-channel fallback constant for every snapshot
channel, substituted for an unknown reading and never zero, so the
destroyed part is modelled as an assignment of some nonzero constant to
each of the lost channels; the concrete numbers are unrecoverable and are
left abstract. -/
def LostDemoEntries : Type :=
  {f : String → Option ℚ //
    (∀ k ∈ lostDemoChannels, ∃ c, f k = some c ∧ c ≠ 0) ∧
    ∀ k, k ∉ lostDemoChannels → f k = none}

instance : Nonempty LostDemoEntries :=
  ⟨⟨fun k => if k ∈ lostDemoChannels then some 45 else none, by
    constructor
    · intro k hk
      refine ⟨45, ?_, by norm_num⟩
      simp [hk]
    · intro k hk
      simp [hk]⟩⟩

/-- Modelled from the spec: one fixed but unknown assignment of nonzero
fallback constants to the lost channels (the nonemptiness witness above is
arbitrary and carries no information into the theorems). -/
noncomputable def lostDemoEntries : LostDemoEntries := Classical.choice inferInstance

/-- The demoValues object of Dashboard.tsx lines 652-665: the legible
entries verbatim, completed on the destroyed span by the spec-modelled
lost entries. -/
noncomputable def demoValues (key : String) : Option ℚ :=
  match demoValuesVisible key with
  | some q => some q
  | none => lostDemoEntries.val key

/-- The channels the dashboard reads from a snapshot through getValue
(Dashboard.tsx lines 684-688, 754-765, 868-1127). -/
def snapshotChannels : List String :=
  ["temperature", "humidity", "pressure", "windSpeed", "windDirection",
   "windGust", "solarRadiation", "rainfall", "uvIndex", "batteryVoltage",
   "soilTemperature", "soilMoisture", "pm25", "pm10"]

/-- JavaScript expression x || 0 applied to a possibly-undefined lookup
result: undefined and the falsy number 0 yield 0, any other number yields
itself. -/
def jsOrZero : Option ℚ → ℚ
  | some q => if q = 0 then 0 else q
  | none => 0

/-- Embedding of getValue (Dashboard.tsx lines 668-675).  parseFloat is a
browser builtin passed in abstractly: pf s = none models a NaN parse.
A null/undefined reading, a NaN number, or an unparsable string falls
through to the fallback expression demoValues[key] || 0.  The decimals
parameter is present in the source but unused on every path. -/
noncomputable def getValue (pf : String → Option ℚ) (values : String → JsVal)
    (key : String) (decimals : ℕ) : ℚ :=
  match values key with
  | .vNull => jsOrZero (demoValues key)
  | .vUndefined => jsOrZero (demoValues key)
  | .vNaN => jsOrZero (demoValues key)
  | .vNum q => q
  | .vStr s =>
      match pf s with
      | some q => q
      | none => jsOrZero (demoValues key)

/-- Decimal digit character for a value below ten (the default arm collapses
everything from nine up, mirroring the radix-10 use sites which only pass
values below ten). -/
def digitChar (k : ℕ) : Char :=
  match k with
  | 0 => '0'
  | 1 => '1'
  | 2 => '2'
  | 3 => '3'
  | 4 => '4'
  | 5 => '5'
  | 6 => '6'
  | 7 => '7'
  | 8 => '8'
  | _ => '9'

/-- Base-10 digit characters of a natural number, most significant first. -/
def natDigits (n : ℕ) : List Char :=
  if h : n < 10 then [digitChar n]
  else natDigits (n / 10) ++ [digitChar (n % 10)]
decreasing_by exact Nat.div_lt_self (by omega) (by norm_num)

/-- Zero-pad a digit list on the left to a target width. -/
def padChars (d : ℕ) (l : List Char) : List Char :=
  List.replicate (d - l.length) '0' ++ l

/-- Character list of Number.prototype.toFixed(d): optional minus sign, then
the integer digits, then (for d > 0) a point and exactly d fraction digits;
the magnitude is scaled by ten to the d and rounded half away from zero in
the ECMA-262 sense (sign split off first, ties toward the larger n). -/
def toFixedChars (q : ℚ) (d : ℕ) : List Char :=
  (if q < 0 then ['-'] else []) ++
    natDigits ((round (|q| * 10 ^ d)).toNat / 10 ^ d) ++
    (if d = 0 then []
     else '.' :: padChars d (natDigits ((round (|q| * 10 ^ d)).toNat % 10 ^ d)))

/-- The rendered toFixed string. -/
def toFixed (q : ℚ) (d : ℕ) : String := String.mk (toFixedChars q d)

/-- Embedding of formatValue (Dashboard.tsx lines 677-681): null and
undefined render as the no-data marker, otherwise the value (a number, or a
string put through parseFloat) renders via toFixed unless it is NaN. -/
def formatValue (pf : String → Option ℚ) (value : JsVal) (decimals : ℕ) :
    String :=
  match value with
  | .vNull => "--"
  | .vUndefined => "--"
  | .vNaN => "--"
  | .vNum q => toFixed q decimals
  | .vStr s =>
      match pf s with
      | some q => toFixed q decimals
      | none => "--"

/-- Truncation toward zero on the reals (JavaScript remainder semantics). -/
noncomputable def jsTruncR (r : ℝ) : ℤ := if 0 ≤ r then ⌊r⌋ else ⌈r⌉

/-- JavaScript remainder operator a % b on reals. -/
noncomputable def jsModR (a b : ℝ) : ℝ := a - b * (jsTruncR (a / b) : ℝ)

/-- JavaScript Math.atan2(y, x): the argument of the complex number x + y i,
in the half-open interval (-pi, pi]. -/
noncomputable def atan2 (y x : ℝ) : ℝ := Complex.arg ⟨x, y⟩

/-- Solar declination in degrees (Dashboard.tsx line 63). -/
noncomputable def solarDeclination (dayOfYear : ℝ) : ℝ :=
  23.45 * Real.sin ((360 / 365) * (dayOfYear - 81) * Real.pi / 180)

/-- The clamped cosine of the sunrise hour angle (Dashboard.tsx lines 86-87):
Math.max(-1, Math.min(1, -tan(lat) * tan(dec))), the argument handed to
Math.acos. -/
noncomputable def solarCosHA (lat dayOfYear : ℝ) : ℝ :=
  let latRad := lat * Real.pi / 180
  let decRad := solarDeclination dayOfYear * Real.pi / 180
  max (-1) (min 1 (-Real.tan latRad * Real.tan decRad))

/-- Result record of calculateSolarPosition.  The source returns sunrise,
sunset and solar noon as Date objects built from the hour values computed
on lines 88-98; the hour values themselves are carried here. -/
structure SolarPosition where
  elevation : ℝ
  azimuth : ℝ
  sunriseHour : ℝ
  sunsetHour : ℝ
  solarNoonHour : ℝ
  dayLength : ℝ

/-- The unclamped solar elevation in degrees (Dashboard.tsx lines 74-77). -/
noncomputable def solarElevationRaw (lat lon dayOfYear hour : ℝ) : ℝ :=
  let declination := solarDeclination dayOfYear
  let solarNoon := 12 - lon / 15
  let hourAngle := 15 * (hour - solarNoon)
  let latRad := lat * Real.pi / 180
  let decRad := declination * Real.pi / 180
  let haRad := hourAngle * Real.pi / 180
  Real.arcsin (Real.sin latRad * Real.sin decRad +
    Real.cos latRad * Real.cos decRad * Real.cos haRad) * 180 / Real.pi

/-- The solar azimuth in degrees before wraparound normalization
(Dashboard.tsx lines 80-83). -/
noncomputable def solarAzimuthRaw (lat lon dayOfYear hour : ℝ) : ℝ :=
  let declination := solarDeclination dayOfYear
  let solarNoon := 12 - lon / 15
  let hourAngle := 15 * (hour - solarNoon)
  let latRad := lat * Real.pi / 180
  let decRad := declination * Real.pi / 180
  let haRad := hourAngle * Real.pi / 180
  atan2 (Real.sin haRad)
    (Real.cos haRad * Real.sin latRad - Real.tan decRad * Real.cos latRad) *
    180 / Real.pi + 180

/-- Embedding of calculateSolarPosition (Dashboard.tsx lines 58-108).  The
evaluation instant enters through the quantities the source extracts from
the Date: dayOfYear, fractional local hour, and the timezone offset in
minutes. -/
noncomputable def calculateSolarPosition (lat lon dayOfYear hour tzOffset : ℝ) :
    SolarPosition :=
  let haRise := Real.arccos (solarCosHA lat dayOfYear) * 180 / Real.pi
  let sunriseHour := 12 - haRise / 15 - lon / 15 + tzOffset / 60
  let sunsetHour := 12 + haRise / 15 - lon / 15 + tzOffset / 60
  { elevation := max (-90) (solarElevationRaw lat lon dayOfYear hour)
    azimuth := jsModR (solarAzimuthRaw lat lon dayOfYear hour + 360) 360
    sunriseHour := sunriseHour
    sunsetHour := sunsetHour
    solarNoonHour := 12 - lon / 15 + tzOffset / 60
    dayLength := (sunsetHour - sunriseHour) * 60 }

/-- Saturation vapor pressure in pascals by the Magnus formula as written in
calculateAirDensity (Dashboard.tsx line 120). -/
noncomputable def magnusSatVaporPressure (temp : ℝ) : ℝ :=
  611.21 * Real.exp ((17.502 * temp) / (240.97 + temp))

/-- Embedding of calculateAirDensity (Dashboard.tsx lines 113-126). -/
noncomputable def calculateAirDensity (temp pressure humidity : ℝ) : ℝ :=
  let Rd : ℝ := 287.05
  let Rv : ℝ := 461.495
  let T := temp + 273.15
  let P := pressure * 100
  let es := magnusSatVaporPressure temp
  let e := (humidity / 100) * es
  let Tv := T / (1 - (e / P) * (1 - Rd / Rv))
  P / (Rd * Tv)

/-- Embedding of calculateSeaLevelPressure (Dashboard.tsx lines 131-139). -/
noncomputable def calculateSeaLevelPressure (stationPressure altitude temp : ℝ) :
    ℝ :=
  let L : ℝ := 0.0065
  let T := temp + 273.15
  let g : ℝ := 9.80665
  let M : ℝ := 0.0289644
  let R : ℝ := 8.31447
  stationPressure * (1 - (L * altitude) / T) ^ (-(g * M) / (R * L))

/-- Modelled from the spec: the closed-form barometric formula
P0 = Pstation * (1 - L h / T)^(-gM/(RL)) with T in Kelvin and the constants
the specification names, written out with the numeric constants inline. -/
noncomputable def seaLevelPressureSpec (stationPressure altitude temp : ℝ) : ℝ :=
  stationPressure *
    (1 - 0.0065 * altitude / (temp + 273.15)) ^
      ((-(9.80665 * 0.0289644) / (8.31447 * 0.0065) : ℝ))

/-- Result record of calculateFireDanger. -/
structure FireDanger where
  ffdi : ℝ
  gfdi : ℝ
  level : String
  color : String

/-- Embedding of calculateFireDanger (Dashboard.tsx lines 144-171).  Real
rpow models Math.pow; the claims under analysis concern only ffdi and
level. -/
noncomputable def calculateFireDanger (temp humidity windSpeed : ℝ) :
    FireDanger :=
  let DF : ℝ := 10
  let V := windSpeed
  let ffdi := 2 * Real.exp
    (-0.45 + 0.987 * Real.log DF - 0.0345 * humidity + 0.0338 * temp +
      0.0234 * V)
  let gfdi := (temp / 25) ^ (1.3 : ℝ) * ((100 - humidity) / 50) ^ (1.2 : ℝ) *
    (windSpeed / 25) ^ (0.5 : ℝ) * 10
  if ffdi < 12 then ⟨ffdi, gfdi, "Low-Moderate", "#22c55e"⟩
  else if ffdi < 25 then ⟨ffdi, gfdi, "High", "#eab308"⟩
  else if ffdi < 50 then ⟨ffdi, gfdi, "Very High", "#f97316"⟩
  else if ffdi < 75 then ⟨ffdi, gfdi, "Severe", "#ef4444"⟩
  else if ffdi < 100 then ⟨ffdi, gfdi, "Extreme", "#dc2626"⟩
  else ⟨ffdi, gfdi, "Catastrophic", "#7f1d1d"⟩

/-- Embedding of calculateWindPower (Dashboard.tsx lines 176-179); the
source default for airDensity is 1.225, passed explicitly here. -/
noncomputable def calculateWindPower (windSpeed airDensity : ℝ) : ℝ :=
  let v := windSpeed / 3.6
  0.5 * airDensity * v ^ (3 : ℕ)

/-- Saturation vapor pressure in kilopascals as written inside calculateETo
(Dashboard.tsx line 197). -/
noncomputable def etoSatVaporPressure (temp : ℝ) : ℝ :=
  0.6108 * Real.exp ((17.27 * temp) / (temp + 237.3))

/-- Actual vapor pressure inside calculateETo (line 198): saturation times
humidity over one hundred. -/
noncomputable def etoActualVaporPressure (temp humidity : ℝ) : ℝ :=
  etoSatVaporPressure temp * (humidity / 100)

/-- Embedding of calculateETo (Dashboard.tsx lines 193-204). -/
noncomputable def calculateETo (temp humidity windSpeed solarRadiation : ℝ) :
    ℝ :=
  let gamma : ℝ := 0.067
  let delta := 4098 * (0.6108 * Real.exp ((17.27 * temp) / (temp + 237.3))) /
    (temp + 237.3) ^ (2 : ℕ)
  let es := etoSatVaporPressure temp
  let ea := etoActualVaporPressure temp humidity
  let u2 := windSpeed / 3.6
  let Rn := solarRadiation * 0.0036
  let eto := (0.408 * delta * Rn + gamma * (900 / (temp + 273)) * u2 *
    (es - ea)) / (delta + gamma * (1 + 0.34 * u2))
  max 0 eto

/-- The snapshot channels the dashboard reads through getValue when it
assembles the derived metrics (Dashboard.tsx lines 684-688, 759). -/
def usedChannels : List String :=
  ["temperature", "humidity", "pressure", "windSpeed", "solarRadiation",
   "windDirection"]

/-- The derived metrics the dashboard computes from one snapshot
(Dashboard.tsx lines 684-698 plus the fire danger, wind power and wind
direction consumers). -/
structure DerivedBundle where
  temp : ℚ
  humidity : ℚ
  pressure : ℚ
  windSpeed : ℚ
  solarRadiation : ℚ
  solarPosition : SolarPosition
  airDensity : ℝ
  seaLevelPressure : ℝ
  eto : ℝ
  fireDanger : FireDanger
  windPower : ℝ
  windDirectionName : Option String

/-- One full derivation pass over a snapshot, mirroring how Dashboard.tsx
wires getValue results and the station profile into the calculation
utilities.  Everything is a plain function of the snapshot readings, the
parseFloat oracle, the profile and the evaluation time. -/
noncomputable def deriveBundle (pf : String → Option ℚ)
    (values : String → JsVal) (lat lon altitude dayOfYear hour tzOffset : ℝ) :
    DerivedBundle :=
  let temp := getValue pf values "temperature" 1
  let humidity := getValue pf values "humidity" 1
  let pressure := getValue pf values "pressure" 1
  let windSpeed := getValue pf values "windSpeed" 1
  let solarRadiation := getValue pf values "solarRadiation" 1
  { temp := temp
    humidity := humidity
    pressure := pressure
    windSpeed := windSpeed
    solarRadiation := solarRadiation
    solarPosition := calculateSolarPosition lat lon dayOfYear hour tzOffset
    airDensity := calculateAirDensity (temp : ℝ) (pressure : ℝ) (humidity : ℝ)
    seaLevelPressure :=
      calculateSeaLevelPressure (pressure : ℝ) altitude (temp : ℝ)
    eto := calculateETo (temp : ℝ) (humidity : ℝ) (windSpeed : ℝ)
      (solarRadiation : ℝ)
    fireDanger := calculateFireDanger (temp : ℝ) (humidity : ℝ) (windSpeed : ℝ)
    windPower := calculateWindPower (windSpeed : ℝ)
      (calculateAirDensity (temp : ℝ) (pressure : ℝ) (humidity : ℝ))
    windDirectionName :=
      getWindDirectionName (getValue pf values "windDirection" 1) }

/-- A reading is unknown to getValue/formatValue when it is null, undefined,
the number NaN, or a string that parseFloat does not parse to a number. -/
def isUnknown (pf : String → Option ℚ) (v : JsVal) : Prop :=
  v = .vNull ∨ v = .vUndefined ∨ v = .vNaN ∨
    ∃ s, v = .vStr s ∧ pf s = none

end Stratus

namespace Stratus

/-! Helper lemmas shared by the claim theorems. -/

lemma magnus_variants_differ_at_zero :
    etoSatVaporPressure 0 * 1000 ≠ magnusSatVaporPressure 0 := by
  unfold etoSatVaporPressure magnusSatVaporPressure
  rw [show ((17.27 : ℝ) * 0) / (0 + 237.3) = 0 by norm_num,
    show ((17.502 : ℝ) * 0) / (240.97 + 0) = 0 by norm_num, Real.exp_zero]
  norm_num

lemma getValue_unknown_eq_fallback (pf : String → Option ℚ)
    (values : String → JsVal) (key : String) (d : ℕ)
    (hu : isUnknown pf (values key)) :
    getValue pf values key d = jsOrZero (demoValues key) := by
  rcases hu with h | h | h | ⟨s, hs, hpf⟩ <;> unfold getValue
  · rw [h]
  · rw [h]
  · rw [h]
  · rw [hs]
    simp [hpf]

lemma demoValues_eq_visible (key : String) (q : ℚ)
    (h : demoValuesVisible key = some q) : demoValues key = some q := by
  unfold demoValues
  rw [h]

lemma demoValues_eq_lost (key : String)
    (h : demoValuesVisible key = none) :
    demoValues key = lostDemoEntries.val key := by
  unfold demoValues
  rw [h]

lemma getValue_congr (pf : String → Option ℚ) (v1 v2 : String → JsVal)
    (key : String) (d : ℕ) (h : v1 key = v2 key) :
    getValue pf v1 key d = getValue pf v2 key d := by
  unfold getValue
  rw [h]

lemma natDigits_ne_nil (n : ℕ) : natDigits n ≠ [] := by
  unfold natDigits
  split <;> simp

lemma natDigits_head (n : ℕ) :
    ∃ k, (natDigits n).head? = some (digitChar k) := by
  induction n using Nat.strong_induction_on with
  | _ n ih =>
    unfold natDigits
    split
    · exact ⟨n, rfl⟩
    · next h =>
      obtain ⟨k, hk⟩ := ih (n / 10) (Nat.div_lt_self (by omega) (by norm_num))
      cases hnd : natDigits (n / 10) with
      | nil => exact absurd hnd (natDigits_ne_nil _)
      | cons a t =>
        rw [hnd] at hk
        simp only [List.head?_cons, Option.some.injEq] at hk
        exact ⟨k, by simp [hnd, hk]⟩

lemma digitChar_ne_dash (k : ℕ) : digitChar k ≠ '-' := by
  unfold digitChar
  split <;> decide

lemma digitChar_ne_upperN (k : ℕ) : digitChar k ≠ 'N' := by
  unfold digitChar
  split <;> decide

lemma toFixedChars_shape (q : ℚ) (d : ℕ) :
    ∃ k l, toFixedChars q d = '-' :: digitChar k :: l ∨
      toFixedChars q d = digitChar k :: l := by
  unfold toFixedChars
  obtain ⟨k, hk⟩ := natDigits_head ((round (|q| * 10 ^ d)).toNat / 10 ^ d)
  cases hnd : natDigits ((round (|q| * 10 ^ d)).toNat / 10 ^ d) with
  | nil => exact absurd hnd (natDigits_ne_nil _)
  | cons a t =>
    rw [hnd] at hk
    simp only [List.head?_cons, Option.some.injEq] at hk
    split
    · refine ⟨k, t ++ (if d = 0 then [] else
        '.' :: padChars d (natDigits ((round (|q| * 10 ^ d)).toNat % 10 ^ d))),
        Or.inl ?_⟩
      simp [hnd, hk]
    · refine ⟨k, t ++ (if d = 0 then [] else
        '.' :: padChars d (natDigits ((round (|q| * 10 ^ d)).toNat % 10 ^ d))),
        Or.inr ?_⟩
      simp [hnd, hk]

lemma toFixed_ne_noData (q : ℚ) (d : ℕ) : toFixed q d ≠ "--" := by
  intro hcontra
  obtain ⟨k, l, hshape⟩ := toFixedChars_shape q d
  have hdata : toFixedChars q d = ['-', '-'] := congrArg String.data hcontra
  rcases hshape with hshape | hshape <;> rw [hshape] at hdata <;>
    simp only [List.cons.injEq] at hdata
  · exact digitChar_ne_dash k hdata.2.1
  · exact digitChar_ne_dash k hdata.1

lemma toFixed_ne_NaNString (q : ℚ) (d : ℕ) : toFixed q d ≠ "NaN" := by
  intro hcontra
  obtain ⟨k, l, hshape⟩ := toFixedChars_shape q d
  have hdata : toFixedChars q d = ['N', 'a', 'N'] := congrArg String.data hcontra
  rcases hshape with hshape | hshape <;> rw [hshape] at hdata <;>
    simp only [List.cons.injEq] at hdata
  · exact absurd hdata.1 (by decide)
  · exact digitChar_ne_upperN k hdata.1

lemma jsModR_nonneg_lt (x b : ℝ) (hx : 0 ≤ x) (hb : 0 < b) :
    0 ≤ jsModR x b ∧ jsModR x b < b := by
  have hxb : 0 ≤ x / b := div_nonneg hx hb.le
  unfold jsModR jsTruncR
  rw [if_pos hxb]
  have h1 : ((⌊x / b⌋ : ℝ)) ≤ x / b := Int.floor_le _
  have h2 : x / b < ⌊x / b⌋ + 1 := Int.lt_floor_add_one _
  have hc : x / b * b = x := div_mul_cancel₀ x hb.ne'
  constructor
  · nlinarith [mul_le_mul_of_nonneg_left h1 hb.le]
  · nlinarith [mul_lt_mul_of_pos_left h2 hb]

lemma neg_pi_lt_atan2 (y x : ℝ) : -Real.pi < atan2 y x :=
  Complex.neg_pi_lt_arg _

lemma atan2_le_pi (y x : ℝ) : atan2 y x ≤ Real.pi :=
  Complex.arg_le_pi _

lemma solarAzimuthRaw_pos (lat lon dayOfYear hour : ℝ) :
    0 < solarAzimuthRaw lat lon dayOfYear hour := by
  unfold solarAzimuthRaw
  have hpi := Real.pi_pos
  set a := atan2 (Real.sin (15 * (hour - (12 - lon / 15)) * Real.pi / 180))
    (Real.cos (15 * (hour - (12 - lon / 15)) * Real.pi / 180) *
        Real.sin (lat * Real.pi / 180) -
      Real.tan (solarDeclination dayOfYear * Real.pi / 180) *
        Real.cos (lat * Real.pi / 180)) with ha
  have h1 : -Real.pi < a := neg_pi_lt_atan2 _ _
  have h2 : (-Real.pi) * 180 / Real.pi = -180 := by
    field_simp
    ring
  have h3 : (-Real.pi) * 180 / Real.pi < a * 180 / Real.pi :=
    div_lt_div_of_pos_right (by nlinarith) hpi
  rw [h2] at h3
  linarith

/-! Claim theorems. -/

/-- Claim C1: for every channel the dashboard reads and every snapshot
whose reading for it is null, undefined, NaN, or an unparsable string,
getValue resolves the reading to the documented per-channel fallback
constant, which is nonzero — so an unknown reading is never replaced by
zero.  The demoValues entries destroyed by the source overlay are the
spec-modelled lostDemoEntries. -/
theorem getValue_unknown_fallback (pf : String → Option ℚ)
    (values : String → JsVal) (key : String) (d : ℕ)
    (hu : isUnknown pf (values key)) (hk : key ∈ snapshotChannels) :
    ∃ c, demoValues key = some c ∧ c ≠ 0 ∧
      getValue pf values key d = c := by
  have hmain := getValue_unknown_eq_fallback pf values key d hu
  have hentry : ∃ c, demoValues key = some c ∧ c ≠ 0 := by
    have hlost : ∀ k, k ∈ lostDemoChannels →
        ∃ c, demoValues k = some c ∧ c ≠ 0 := by
      intro k hkl
      obtain ⟨c, hc, hcz⟩ := lostDemoEntries.property.1 k hkl
      refine ⟨c, ?_, hcz⟩
      fin_cases hkl <;> exact (demoValues_eq_lost _ (by rfl)).trans hc
    fin_cases hk
    · exact ⟨26.4, demoValues_eq_visible _ _ rfl, by norm_num⟩
    · exact ⟨52, demoValues_eq_visible _ _ rfl, by norm_num⟩
    · exact ⟨865.2, demoValues_eq_visible _ _ rfl, by norm_num⟩
    · exact ⟨14.5, demoValues_eq_visible _ _ rfl, by norm_num⟩
    · exact hlost "windDirection" (by simp [lostDemoChannels])
    · exact hlost "windGust" (by simp [lostDemoChannels])
    · exact hlost "solarRadiation" (by simp [lostDemoChannels])
    · exact hlost "rainfall" (by simp [lostDemoChannels])
    · exact ⟨9.8, demoValues_eq_visible _ _ rfl, by norm_num⟩
    · exact ⟨13.1, demoValues_eq_visible _ _ rfl, by norm_num⟩
    · exact ⟨22.5, demoValues_eq_visible _ _ rfl, by norm_num⟩
    · exact ⟨28.4, demoValues_eq_visible _ _ rfl, by norm_num⟩
    · exact ⟨11.2, demoValues_eq_visible _ _ rfl, by norm_num⟩
    · exact ⟨22.8, demoValues_eq_visible _ _ rfl, by norm_num⟩
  obtain ⟨c, hc, hcz⟩ := hentry
  refine ⟨c, hc, hcz, ?_⟩
  rw [hmain, hc]
  show (if c = 0 then (0 : ℚ) else c) = c
  split_ifs with h0
  · exact h0.symm
  · rfl

/-- Witness for claim C1 at a concrete unknown reading of a concrete
channel. -/
theorem getValue_unknown_fallback_witness :
    ∃ c, demoValues "temperature" = some c ∧ c ≠ 0 ∧
      getValue (fun _ => none) (fun _ => JsVal.vNull) "temperature" 1 = c :=
  getValue_unknown_fallback (fun _ => none) (fun _ => JsVal.vNull)
    "temperature" 1 (Or.inl rfl) (by simp [snapshotChannels])

/-- Claim C2, counterexample: the saturation-vapor-pressure subterm of
calculateETo does not agree with the one of calculateAirDensity up to the
Pa/kPa factor of 1000; already at temperature zero they differ (610.8
versus 611.21 pascals). -/
theorem eto_airDensity_magnus_differ :
    etoSatVaporPressure 0 * 1000 ≠ magnusSatVaporPressure 0 :=
  magnus_variants_differ_at_zero

/-- Claim C2, amended: calculateETo computes saturation vapor pressure by
the FAO-56 Magnus variant 0.6108 exp(17.27 T / (T + 237.3)) kilopascals and
actual vapor pressure as saturation times humidity over one hundred, while
calculateAirDensity uses the variant 611.21 exp(17.502 T / (240.97 + T))
pascals; these are different formulas, not the same one up to the unit
factor, as temperature zero already shows. -/
theorem eto_vaporPressure_formulas (t h : ℝ) :
    etoSatVaporPressure t = 0.6108 * Real.exp ((17.27 * t) / (t + 237.3)) ∧
    etoActualVaporPressure t h = etoSatVaporPressure t * (h / 100) ∧
    magnusSatVaporPressure t =
      611.21 * Real.exp ((17.502 * t) / (240.97 + t)) ∧
    etoSatVaporPressure 0 * 1000 ≠ magnusSatVaporPressure 0 :=
  ⟨rfl, rfl, rfl, magnus_variants_differ_at_zero⟩

/-- Claim C5: calculateETo clamps the simplified Penman-Monteith result to
be non-negative before returning it, for every input combination. -/
theorem calculateETo_nonneg (temp humidity windSpeed solarRadiation : ℝ) :
    0 ≤ calculateETo temp humidity windSpeed solarRadiation :=
  le_max_left 0 _

/-- Claim C7: calculateSeaLevelPressure is exactly the closed-form
barometric formula of the specification, in particular at the regression
fixture (865.2, 1351, 26.4); over the reals the agreement is exact, so any
floating-point tolerance is met. -/
theorem calculateSeaLevelPressure_formula (s h t : ℝ) :
    calculateSeaLevelPressure s h t = seaLevelPressureSpec s h t ∧
    calculateSeaLevelPressure 865.2 1351 26.4 =
      seaLevelPressureSpec 865.2 1351 26.4 :=
  ⟨rfl, rfl⟩

/-- Claim C10: formatValue renders the no-data marker exactly for null,
undefined, NaN, and strings parseFloat rejects; otherwise it renders the
parsed number via toFixed at the requested precision, and its output is
never the string NaN. -/
theorem formatValue_noData (pf : String → Option ℚ) (v : JsVal) (d : ℕ) :
    (formatValue pf v d = "--" ↔
      v = JsVal.vNull ∨ v = JsVal.vUndefined ∨ v = JsVal.vNaN ∨
        ∃ s, v = JsVal.vStr s ∧ pf s = none) ∧
    formatValue pf v d ≠ "NaN" ∧
    (∀ q, v = JsVal.vNum q → formatValue pf v d = toFixed q d) ∧
    (∀ s q, v = JsVal.vStr s → pf s = some q →
      formatValue pf v d = toFixed q d) := by
  cases v with
  | vNull => simp [formatValue]
  | vUndefined => simp [formatValue]
  | vNaN => simp [formatValue]
  | vNum q => simp [formatValue, toFixed_ne_noData, toFixed_ne_NaNString]
  | vStr s =>
    rcases hpf : pf s with _ | q
    · refine ⟨by simp [formatValue, hpf], by simp [formatValue, hpf],
        fun q hq => JsVal.noConfusion hq, ?_⟩
      intro s1 q1 hs1 hq1
      injection hs1 with hss
      subst hss
      rw [hpf] at hq1
      exact Option.noConfusion hq1
    · refine ⟨by simp [formatValue, hpf, toFixed_ne_noData],
        by simp [formatValue, hpf, toFixed_ne_NaNString],
        fun q1 hq1 => JsVal.noConfusion hq1, ?_⟩
      intro s1 q1 hs1 hq1
      injection hs1 with hss
      subst hss
      rw [hpf] at hq1
      injection hq1 with hqq
      rw [formatValue, hpf, hqq]

/-- Witness for claim C10 at a concrete null input. -/
theorem formatValue_noData_witness :
    formatValue (fun _ => none) JsVal.vNull 1 = "--" :=
  (formatValue_noData (fun _ => none) JsVal.vNull 1).1.mpr (Or.inl rfl)

/-- Claim C3, counterexample: at degrees = -100 the JavaScript remainder
keeps the dividend's sign, the rounded index is -4, and the array access is
undefined — not the compass label "W" the specification's non-negative-mod
formula selects. -/
theorem getWindDirectionName_negative_undefined :
    getWindDirectionName (-100) = none ∧
    windDirectionNameSpec (-100) = "W" := by
  constructor
  · have hm : jsModQ (-100 : ℚ) 360 = -100 := by norm_num [jsModQ, jsTruncQ]
    have hround : jsRoundQ ((-100 : ℚ) / 22.5) = -4 := by norm_num [jsRoundQ]
    simp only [getWindDirectionName, hm, hround]
    decide
  · have hm : mathModQ (-100 : ℚ) 360 = 260 := by norm_num [mathModQ]
    have hround : jsRoundQ ((260 : ℚ) / 22.5) = 12 := by norm_num [jsRoundQ]
    simp only [windDirectionNameSpec, hm, hround]
    decide

/-- Claim C3, amended: for every non-negative degrees the function agrees
with the specification's formula and lands in the 16-label compass rose,
and the four quoted identities hold (including the negative input -10,
which still rounds to index 0); but for negative inputs below -11.25 the
JavaScript remainder produces a negative index and the lookup is
undefined. -/
theorem getWindDirectionName_spec_agrees (q : ℚ) (hq : 0 ≤ q) :
    (getWindDirectionName q = some (windDirectionNameSpec q) ∧
      windDirectionNameSpec q ∈ directions) ∧
    getWindDirectionName 0 = some "N" ∧
    getWindDirectionName 90 = some "E" ∧
    getWindDirectionName 360 = some "N" ∧
    getWindDirectionName (-10) = getWindDirectionName 350 := by
  refine ⟨?_, ?_, ?_, ?_, ?_⟩
  · have hq360 : (0 : ℚ) ≤ q / 360 := by positivity
    have hmod : jsModQ q 360 = mathModQ q 360 := by
      unfold jsModQ mathModQ jsTruncQ
      rw [if_pos hq360]
    have hfl : ((⌊q / 360⌋ : ℚ)) ≤ q / 360 := Int.floor_le _
    have hfu : q / 360 < ⌊q / 360⌋ + 1 := Int.lt_floor_add_one _
    have hm0 : 0 ≤ mathModQ q 360 := by
      unfold mathModQ
      nlinarith [mul_le_mul_of_nonneg_right hfl (by norm_num : (0 : ℚ) ≤ 360)]
    have hm360 : mathModQ q 360 < 360 := by
      unfold mathModQ
      nlinarith [mul_lt_mul_of_pos_right hfu (by norm_num : (0 : ℚ) < 360)]
    unfold getWindDirectionName windDirectionNameSpec
    rw [hmod]
    set r : ℤ := jsRoundQ (mathModQ q 360 / 22.5) with hr
    have hr0 : 0 ≤ r := by
      rw [hr]
      unfold jsRoundQ
      refine Int.le_floor.mpr ?_
      push_cast
      have : (0 : ℚ) ≤ mathModQ q 360 / 22.5 := div_nonneg hm0 (by norm_num)
      linarith
    have hr16 : r ≤ 16 := by
      rw [hr]
      unfold jsRoundQ
      have hlt : mathModQ q 360 / 22.5 < 16 := by
        rw [div_lt_iff₀ (by norm_num : (0 : ℚ) < 22.5)]
        linarith
      have := Int.floor_lt.mpr
        (show mathModQ q 360 / 22.5 + 1 / 2 < ((17 : ℤ) : ℚ) by
          push_cast; linarith)
      omega
    clear_value r
    interval_cases r <;> exact ⟨by decide, by decide⟩
  · have hm : jsModQ (0 : ℚ) 360 = 0 := by norm_num [jsModQ, jsTruncQ]
    have hround : jsRoundQ ((0 : ℚ) / 22.5) = 0 := by norm_num [jsRoundQ]
    simp only [getWindDirectionName, hm, hround]
    decide
  · have hm : jsModQ (90 : ℚ) 360 = 90 := by norm_num [jsModQ, jsTruncQ]
    have hround : jsRoundQ ((90 : ℚ) / 22.5) = 4 := by norm_num [jsRoundQ]
    simp only [getWindDirectionName, hm, hround]
    decide
  · have hm : jsModQ (360 : ℚ) 360 = 0 := by norm_num [jsModQ, jsTruncQ]
    have hround : jsRoundQ ((0 : ℚ) / 22.5) = 0 := by norm_num [jsRoundQ]
    simp only [getWindDirectionName, hm, hround]
    decide
  · have hmA : jsModQ (-10 : ℚ) 360 = -10 := by norm_num [jsModQ, jsTruncQ]
    have hroundA : jsRoundQ ((-10 : ℚ) / 22.5) = 0 := by norm_num [jsRoundQ]
    have hmB : jsModQ (350 : ℚ) 360 = 350 := by norm_num [jsModQ, jsTruncQ]
    have hroundB : jsRoundQ ((350 : ℚ) / 22.5) = 16 := by norm_num [jsRoundQ]
    simp only [getWindDirectionName, hmA, hroundA, hmB, hroundB]
    decide

/-- Witness for the amended claim C3 at degrees = 45. -/
theorem getWindDirectionName_spec_agrees_witness :
    getWindDirectionName 45 = some (windDirectionNameSpec 45) :=
  ((getWindDirectionName_spec_agrees 45 (by norm_num)).1).1

set_option maxHeartbeats 1000000 in
/-- Claim C4: calculateFireDanger returns the McArthur Mark-5 FFDI with
drought factor 10, classifies it by the strict ascending thresholds 12, 25,
50, 75, 100 into the six fixed level strings, and each level is reported
exactly on its half-open band. -/
theorem calculateFireDanger_levels (t h w : ℝ) :
    (calculateFireDanger t h w).ffdi =
      2 * Real.exp (-0.45 + 0.987 * Real.log 10 - 0.0345 * h + 0.0338 * t +
        0.0234 * w) ∧
    ((calculateFireDanger t h w).level = "Low-Moderate" ↔
      (calculateFireDanger t h w).ffdi < 12) ∧
    ((calculateFireDanger t h w).level = "High" ↔
      12 ≤ (calculateFireDanger t h w).ffdi ∧
        (calculateFireDanger t h w).ffdi < 25) ∧
    ((calculateFireDanger t h w).level = "Very High" ↔
      25 ≤ (calculateFireDanger t h w).ffdi ∧
        (calculateFireDanger t h w).ffdi < 50) ∧
    ((calculateFireDanger t h w).level = "Severe" ↔
      50 ≤ (calculateFireDanger t h w).ffdi ∧
        (calculateFireDanger t h w).ffdi < 75) ∧
    ((calculateFireDanger t h w).level = "Extreme" ↔
      75 ≤ (calculateFireDanger t h w).ffdi ∧
        (calculateFireDanger t h w).ffdi < 100) ∧
    ((calculateFireDanger t h w).level = "Catastrophic" ↔
      100 ≤ (calculateFireDanger t h w).ffdi) ∧
    ((calculateFireDanger t h w).level = "Low-Moderate" ∨
     (calculateFireDanger t h w).level = "High" ∨
     (calculateFireDanger t h w).level = "Very High" ∨
     (calculateFireDanger t h w).level = "Severe" ∨
     (calculateFireDanger t h w).level = "Extreme" ∨
     (calculateFireDanger t h w).level = "Catastrophic") := by
  simp only [calculateFireDanger]
  set F := 2 * Real.exp (-0.45 + 0.987 * Real.log 10 - 0.0345 * h + 0.0338 * t +
    0.0234 * w) with hF
  set G := (t / 25) ^ (1.3 : ℝ) * ((100 - h) / 50) ^ (1.2 : ℝ) *
    (w / 25) ^ (0.5 : ℝ) * 10 with hG
  split_ifs with h1 h2 h3 h4 h5 <;>
    refine ⟨rfl, ?_, ?_, ?_, ?_, ?_, ?_, by simp⟩ <;>
    first
      | exact iff_of_true rfl (by constructor <;> linarith)
      | exact iff_of_true rfl (by linarith)
      | exact iff_of_false (by simp) (by rintro ⟨ha, hb⟩; linarith)
      | exact iff_of_false (by simp) (by intro ha; linarith)

/-- Claim C6: the argument handed to Math.acos is clamped into [-1, 1], the
sunrise hour is computed from the arccosine of exactly that clamped value,
the reported elevation is floored at -90, the normalized azimuth lies in
[0, 360), and the function is total — every input produces a value. -/
theorem solarPosition_safe (lat lon dayOfYear hour tzOffset : ℝ) :
    (-1 ≤ solarCosHA lat dayOfYear ∧ solarCosHA lat dayOfYear ≤ 1) ∧
    (calculateSolarPosition lat lon dayOfYear hour tzOffset).sunriseHour =
      12 - Real.arccos (solarCosHA lat dayOfYear) * 180 / Real.pi / 15 -
        lon / 15 + tzOffset / 60 ∧
    -90 ≤ (calculateSolarPosition lat lon dayOfYear hour tzOffset).elevation ∧
    0 ≤ (calculateSolarPosition lat lon dayOfYear hour tzOffset).azimuth ∧
    (calculateSolarPosition lat lon dayOfYear hour tzOffset).azimuth < 360 := by
  have haz := jsModR_nonneg_lt (solarAzimuthRaw lat lon dayOfYear hour + 360)
    360 (by linarith [solarAzimuthRaw_pos lat lon dayOfYear hour])
    (by norm_num)
  refine ⟨⟨le_max_left _ _, ?_⟩, rfl, le_max_left _ _, haz.1, haz.2⟩
  unfold solarCosHA
  exact max_le (by norm_num) (min_le_left _ _)

/-- Claim C9: the elevation reported by calculateSolarPosition also never
exceeds 90 degrees — it is the arcsine term, whose range is [-90, 90] after
scaling, floored at -90 — so it always lies in [-90, 90]. -/
theorem solarPosition_elevation_in_Icc (lat lon dayOfYear hour tzOffset : ℝ) :
    -90 ≤ (calculateSolarPosition lat lon dayOfYear hour tzOffset).elevation ∧
    (calculateSolarPosition lat lon dayOfYear hour tzOffset).elevation ≤ 90 := by
  refine ⟨le_max_left _ _, ?_⟩
  show max (-90) (solarElevationRaw lat lon dayOfYear hour) ≤ 90
  refine max_le (by norm_num) ?_
  unfold solarElevationRaw
  have hpi := Real.pi_pos
  rw [div_le_iff₀ hpi]
  nlinarith [Real.arcsin_le_pi_div_two
    (Real.sin (lat * Real.pi / 180) *
        Real.sin (solarDeclination dayOfYear * Real.pi / 180) +
      Real.cos (lat * Real.pi / 180) *
          Real.cos (solarDeclination dayOfYear * Real.pi / 180) *
        Real.cos (15 * (hour - (12 - lon / 15)) * Real.pi / 180))]

/-- Claim C8: the derivation pass is a pure function of the snapshot
readings it consumes, the parseFloat oracle, the station profile and the
evaluation time: two snapshots that agree on the channels the dashboard
reads produce identical derived bundles (and, the functions being plain
functions of their arguments, repeated invocation with identical arguments
trivially reproduces the same outputs and can mutate no state). -/
theorem deriveBundle_pure (pf : String → Option ℚ)
    (v1 v2 : String → JsVal) (lat lon altitude dayOfYear hour tzOffset : ℝ)
    (hagree : ∀ k ∈ usedChannels, v1 k = v2 k) :
    deriveBundle pf v1 lat lon altitude dayOfYear hour tzOffset =
      deriveBundle pf v2 lat lon altitude dayOfYear hour tzOffset := by
  have ht := getValue_congr pf v1 v2 "temperature" 1
    (hagree _ (by simp [usedChannels]))
  have hh := getValue_congr pf v1 v2 "humidity" 1
    (hagree _ (by simp [usedChannels]))
  have hp := getValue_congr pf v1 v2 "pressure" 1
    (hagree _ (by simp [usedChannels]))
  have hw := getValue_congr pf v1 v2 "windSpeed" 1
    (hagree _ (by simp [usedChannels]))
  have hs := getValue_congr pf v1 v2 "solarRadiation" 1
    (hagree _ (by simp [usedChannels]))
  have hd := getValue_congr pf v1 v2 "windDirection" 1
    (hagree _ (by simp [usedChannels]))
  unfold deriveBundle
  rw [ht, hh, hp, hw, hs, hd]

/-- Witness for claim C8 at a concrete snapshot pair. -/
theorem deriveBundle_pure_witness :
    deriveBundle (fun _ => none) (fun _ => JsVal.vNull) 0 0 0 0 0 0 =
      deriveBundle (fun _ => none) (fun _ => JsVal.vNull) 0 0 0 0 0 0 :=
  deriveBundle_pure (fun _ => none) (fun _ => JsVal.vNull)
    (fun _ => JsVal.vNull) 0 0 0 0 0 0 (fun _ _ => rfl)

end Stratus
